import Mathlib

/-!
Shallow embedding of the computational core of `app.py` (Earth 3.0 demo
dashboard): the synthetic time-series generator `generate_time_series`, the
PDF snapshot builder `make_pdf_bytes`, the inline impact arithmetic
(`uplift` / `projected`), and the "Run Simulated Audit" button handler.

Numbers are modelled as exact rationals (ℚ).  numpy's global pseudo-random
generator is external library state: it is modelled abstractly by an
`NpRandomModel` (a deterministic map from seed to generator state, a
deterministic stream of standard-normal draws per state, and a state-advance
map); every theorem quantifies over this model, so nothing depends on the
concrete pseudo-random stream.
-/

/-- Calendar date (year may be any integer; month 1-12; day 1-based). -/
structure Date where
  year : ℤ
  month : ℕ
  day : ℕ
deriving DecidableEq

/-- Gregorian leap-year rule, as used by Python's calendar. -/
def isLeap (y : ℤ) : Bool :=
  (y % 4 == 0 && y % 100 != 0) || (y % 400 == 0)

/-- Number of days in a month of a given year. -/
def daysInMonth (y : ℤ) (m : ℕ) : ℕ :=
  if m = 2 then (if isLeap y then 29 else 28)
  else if m = 4 ∨ m = 6 ∨ m = 9 ∨ m = 11 then 30
  else 31

/-- A date is valid when its month and day are in range. -/
def Date.valid (d : Date) : Prop :=
  1 ≤ d.month ∧ d.month ≤ 12 ∧ 1 ≤ d.day ∧ d.day ≤ daysInMonth d.year d.month

instance (d : Date) : Decidable d.valid := by
  unfold Date.valid; infer_instance

/-- A date is a month end when its day is the last day of its month. -/
def Date.isMonthEnd (d : Date) : Prop :=
  d.day = daysInMonth d.year d.month

instance (d : Date) : Decidable d.isMonthEnd := by
  unfold Date.isMonthEnd; infer_instance

/-- Strict chronological order on dates (lexicographic on year, month, day). -/
def Date.lt (a b : Date) : Prop :=
  a.year < b.year ∨
    (a.year = b.year ∧ (a.month < b.month ∨ (a.month = b.month ∧ a.day < b.day)))

instance (a b : Date) : Decidable (Date.lt a b) := by
  unfold Date.lt; infer_instance

/-- Chronological order on dates, allowing equality. -/
def Date.le (a b : Date) : Prop := Date.lt a b ∨ a = b

instance (a b : Date) : Decidable (Date.le a b) := by
  unfold Date.le; infer_instance

/-- Linear month index: months since January of year 0. -/
def mIdx (d : Date) : ℤ := 12 * d.year + d.month - 1

/-- The month-end date of the month with linear index `k`. -/
def monthEndOfIdx (k : ℤ) : Date :=
  ⟨k / 12, (k % 12).toNat + 1, daysInMonth (k / 12) ((k % 12).toNat + 1)⟩

/-- Linear index of the most recent month whose month-end is on or before
`d`: the month of `d` itself when `d` is a month end, otherwise the previous
month.  This is how `pd.date_range(end=d, freq=M)` anchors its end. -/
def lastMEIdx (d : Date) : ℤ :=
  if d.day = daysInMonth d.year d.month then mIdx d else mIdx d - 1

/-- The most recent month-end date on or before `d`. -/
def mostRecentMonthEnd (d : Date) : Date := monthEndOfIdx (lastMEIdx d)

/-- `pd.date_range(end=endDate, periods=periods, freq=M)`: the `periods`
consecutive month-end dates ending at the most recent month-end on or
before `endDate`, in ascending order. -/
def date_range_M (endDate : Date) (periods : ℕ) : List Date :=
  (List.range periods).map
    (fun i : ℕ => monthEndOfIdx (lastMEIdx endDate - ((periods : ℤ) - 1) + (i : ℤ)))

/-- `np.linspace start stop num`: `num` evenly spaced points from `start` to
`stop` inclusive (just `[start]` when `num = 1`). -/
def linspace (start stop : ℚ) (num : ℕ) : List ℚ :=
  if num = 1 then [start]
  else (List.range num).map (fun i : ℕ => start + (i : ℚ) * (stop - start) / ((num : ℚ) - 1))

/-- Closed form of the `i`-th entry of `linspace start stop num`. -/
def linspaceVal (start stop : ℚ) (num i : ℕ) : ℚ :=
  if num = 1 then start else start + i * (stop - start) / ((num : ℚ) - 1)

/-- `Series.clip(lo, hi)` applied to one value. -/
def clip (lo hi x : ℚ) : ℚ := max lo (min x hi)

/-- Round to the nearest integer, ties to even (numpy rounding). -/
def roundHalfEven (x : ℚ) : ℤ :=
  let n := x.floor
  if x - n < 1 / 2 then n
  else if 1 / 2 < x - n then n + 1
  else if n % 2 = 0 then n else n + 1

/-- `DataFrame.round(1)` applied to one value: round to one decimal place. -/
def round1 (x : ℚ) : ℚ := (roundHalfEven (10 * x) : ℚ) / 10

/-- Abstract, deterministic model of numpy's global pseudo-random generator
(external library state).  `stateOfSeed` is what `np.random.seed` installs;
`stdNormal s i` is the `i`-th standard-normal draw produced from state `s`;
`advance s n` is the state after `n` draws. -/
structure NpRandomModel where
  stateOfSeed : ℕ → ℕ
  stdNormal : ℕ → ℕ → ℚ
  advance : ℕ → ℕ → ℕ

/-- `np.random.normal(mu, sigma, (rows, cols))` from generator state `s`:
a rows×cols matrix filled in row-major order with `mu + sigma * draw`. -/
def npNormalMatrix (R : NpRandomModel) (s : ℕ) (mu sigma : ℚ)
    (rows cols : ℕ) : List (List ℚ) :=
  (List.range rows).map
    (fun i => (List.range cols).map (fun j => mu + sigma * R.stdNormal s (i * cols + j)))

/-- A pandas DataFrame as used here: a date index, column names, and a
row-major matrix of rational values. -/
structure DataFrame where
  index : List Date
  cols : List String
  vals : List (List ℚ)
deriving DecidableEq

/-- `generate_time_series(seed, periods)` from `app.py`.  `today` is
`datetime.utcnow().date()`; `g` is the incoming global numpy generator
state (immediately overwritten by `np.random.seed(seed)`).  Returns the
DataFrame together with the outgoing generator state. -/
def generate_time_series (R : NpRandomModel) (today : Date) (g : ℕ)
    (seed : ℕ) (periods : ℕ) : DataFrame × ℕ :=
  let s := R.stateOfSeed seed
  let base := linspace 60 85 periods
  let noise := npNormalMatrix R s 0 4 periods 3
  let raw := List.zipWith (fun b row => row.map (fun x => b + x)) base noise
  let idx := date_range_M today periods
  let clipped := raw.map (fun row => row.map (clip 0 100))
  let rounded := clipped.map (fun row => row.map round1)
  (⟨idx, ["Governance", "ESG", "Finance"], rounded⟩, R.advance s (periods * 3))

/-- One text drawing operation on the PDF canvas. -/
structure TextElem where
  x : ℚ
  y : ℚ
  font : String
  size : ℚ
  content : String
deriving DecidableEq

/-- One PDF page: the list of text operations drawn on it. -/
structure Page where
  elems : List TextElem
deriving DecidableEq

/-- ISO A4 width in points (210 mm at 72 points per inch). -/
def A4width : ℚ := 75600 / 127

/-- ISO A4 height in points (297 mm at 72 points per inch). -/
def A4height : ℚ := 106920 / 127

/-- `make_pdf_bytes(org_name, summary_lines)` from `app.py`, modelled at the
level of the drawing-command stream handed to the PDF library: a title line,
a timestamp line (`now` is the formatted `datetime.utcnow()`), and each
summary line on its own line from `height - 120` downwards (reportlab text
objects advance by a leading of 1.2 × font size).  Exactly one `showPage`
call, hence exactly one page. -/
def make_pdf_bytes (now : String) (org_name : String)
    (summary_lines : List String) : List Page :=
  let title : TextElem :=
    ⟨40, A4height - 60, "Helvetica-Bold", 16, "Earth 3.0 — Board Audit Snapshot • " ++ org_name⟩
  let stamp : TextElem :=
    ⟨40, A4height - 82, "Helvetica", 10, "Generated: " ++ now⟩
  let body := summary_lines.enum.map
    (fun p => (⟨40, A4height - 120 - (11 * 12 / 10) * p.1, "Helvetica", 11, p.2⟩ : TextElem))
  [⟨title :: stamp :: body⟩]

/-- Remove the timestamp drawing operation (the second element of each
page) from a rendered document. -/
def stripTimestamp (pgs : List Page) : List Page :=
  pgs.map (fun pg => ⟨pg.elems.eraseIdx 1⟩)

/-- Impact simulation, first line: `uplift = base_revenue * invest_pct / 100.0`. -/
def uplift (base_revenue invest_pct : ℚ) : ℚ := base_revenue * invest_pct / 100

/-- Impact simulation, second line: `projected = base_revenue + uplift`. -/
def projected (base_revenue invest_pct : ℚ) : ℚ :=
  base_revenue + uplift base_revenue invest_pct

/-- What the "Run Simulated Audit" handler computes and shows. -/
structure AuditResult where
  scores : List (String × ℚ)
  summary_lines : List String
  pdf : List Page
  rngState : ℕ
deriving DecidableEq

/-- The "Run Simulated Audit" button handler from `app.py`: calls
`generate_time_series(seed=42)` with the default period count 12, takes the
last row (`df.iloc[-1]`) as the metric scores, builds the summary lines and
the PDF. -/
def run_simulated_audit (R : NpRandomModel) (today : Date) (now : String)
    (g : ℕ) (org : String) : AuditResult :=
  let res := generate_time_series R today g 42 12
  let df := res.1
  let latest := df.vals.getLastD []
  let scores := df.cols.zip latest
  let summary :=
    ["Organization: " ++ org, "Generated: " ++ now] ++
      scores.map (fun kv => kv.1 ++ ": " ++ toString kv.2)
  ⟨scores, summary, make_pdf_bytes now org summary, res.2⟩

/-- A concrete instance of the abstract numpy model, used to evaluate the
embedding on concrete inputs. -/
def trivialRng : NpRandomModel := ⟨id, fun _ _ => 0, fun s _ => s⟩

/-! ### Helper lemmas -/

theorem ratFloor_eq (q : ℚ) : q.floor = ⌊q⌋ := by
  rw [Rat.floor_def', Rat.floor_def]

theorem roundHalfEven_nonneg (x : ℚ) (hx : 0 ≤ x) : 0 ≤ roundHalfEven x := by
  have h0 : (0 : ℤ) ≤ ⌊x⌋ := Int.floor_nonneg.mpr hx
  simp only [roundHalfEven, ratFloor_eq]
  split_ifs <;> omega

theorem roundHalfEven_le (x : ℚ) (B : ℤ) (hx : x ≤ B) : roundHalfEven x ≤ B := by
  have h1 : ⌊x⌋ ≤ B := by
    have := Int.floor_le_floor hx
    simpa using this
  have hfl : (⌊x⌋ : ℚ) ≤ x := Int.floor_le x
  simp only [roundHalfEven, ratFloor_eq]
  split_ifs with hA hB hC
  · exact h1
  · have hlt : (⌊x⌋ : ℚ) < B := by
      push_neg at hA
      calc (⌊x⌋ : ℚ) < x - 1 / 2 + 1 / 2 := by linarith
        _ = x := by ring
        _ ≤ B := hx
    have : ⌊x⌋ < B := by exact_mod_cast hlt
    omega
  · exact h1
  · push_neg at hA
    have hlt : (⌊x⌋ : ℚ) < B := by
      calc (⌊x⌋ : ℚ) ≤ x - 1 / 2 := by linarith
        _ < x := by linarith
        _ ≤ B := hx
    have : ⌊x⌋ < B := by exact_mod_cast hlt
    omega

theorem clip_mem (x : ℚ) : 0 ≤ clip 0 100 x ∧ clip 0 100 x ≤ 100 := by
  unfold clip
  constructor
  · exact le_max_left 0 _
  · exact max_le (by norm_num) (min_le_right x 100)

theorem round1_bounds (x : ℚ) (h0 : 0 ≤ x) (h100 : x ≤ 100) :
    0 ≤ round1 x ∧ round1 x ≤ 100 := by
  have ha := roundHalfEven_nonneg (10 * x) (by linarith)
  have hb := roundHalfEven_le (10 * x) 1000 (by push_cast; linarith)
  unfold round1
  constructor
  · apply div_nonneg _ (by norm_num)
    exact_mod_cast ha
  · rw [div_le_iff₀ (by norm_num : (0 : ℚ) < 10)]
    calc ((roundHalfEven (10 * x) : ℤ) : ℚ) ≤ ((1000 : ℤ) : ℚ) := by exact_mod_cast hb
      _ = 100 * 10 := by norm_num

theorem round1_tenths (x : ℚ) : ∃ n : ℤ, round1 x = (n : ℚ) / 10 :=
  ⟨roundHalfEven (10 * x), rfl⟩

theorem getD_map_range {α : Type} (f : ℕ → α) (p i : ℕ) (hi : i < p) (d : α) :
    (((List.range p).map f).getD i d) = f i := by
  rw [List.getD_eq_getElem?_getD]
  simp [List.getElem?_map, List.getElem?_range, hi]

theorem linspace_eq_map (a b : ℚ) (n : ℕ) :
    linspace a b n = (List.range n).map (linspaceVal a b n) := by
  unfold linspace linspaceVal
  by_cases h : n = 1
  · subst h
    rfl
  · simp only [if_neg h]

theorem generate_vals_eq (R : NpRandomModel) (today : Date) (g seed periods : ℕ) :
    (generate_time_series R today g seed periods).1.vals =
      (List.range periods).map (fun i => (List.range 3).map (fun j =>
        round1 (clip 0 100 (linspaceVal 60 85 periods i +
          (0 + 4 * R.stdNormal (R.stateOfSeed seed) (i * 3 + j)))))) := by
  simp only [generate_time_series, npNormalMatrix, linspace_eq_map,
    List.zipWith_map, List.zipWith_same, List.map_map]
  rfl

theorem generate_index_eq (R : NpRandomModel) (today : Date) (g seed periods : ℕ) :
    (generate_time_series R today g seed periods).1.index = date_range_M today periods := rfl

theorem monthEndOfIdx_isMonthEnd (k : ℤ) : (monthEndOfIdx k).isMonthEnd := rfl

theorem monthEndOfIdx_lt (k : ℤ) : Date.lt (monthEndOfIdx k) (monthEndOfIdx (k + 1)) := by
  unfold monthEndOfIdx Date.lt
  simp only
  omega

theorem lastMEIdx_of_monthEnd (d : Date) (hme : d.isMonthEnd) : lastMEIdx d = mIdx d :=
  if_pos hme

theorem lastMEIdx_of_not_monthEnd (d : Date) (hme : ¬ d.isMonthEnd) :
    lastMEIdx d = mIdx d - 1 :=
  if_neg hme

theorem mostRecentMonthEnd_of_monthEnd (d : Date) (hv : d.valid) (hme : d.isMonthEnd) :
    mostRecentMonthEnd d = d := by
  obtain ⟨h1, h2, h3, h4⟩ := hv
  unfold mostRecentMonthEnd
  rw [lastMEIdx_of_monthEnd d hme]
  unfold monthEndOfIdx mIdx
  have hy : (12 * d.year + (d.month : ℤ) - 1) / 12 = d.year := by omega
  have hm : ((12 * d.year + (d.month : ℤ) - 1) % 12).toNat + 1 = d.month := by omega
  rw [hy, hm, ← hme]

theorem mostRecentMonthEnd_le (d : Date) (hv : d.valid) : Date.le (mostRecentMonthEnd d) d := by
  by_cases hme : d.isMonthEnd
  · exact Or.inr (mostRecentMonthEnd_of_monthEnd d hv hme)
  · left
    obtain ⟨h1, h2, h3, h4⟩ := hv
    unfold mostRecentMonthEnd
    rw [lastMEIdx_of_not_monthEnd d hme]
    unfold monthEndOfIdx mIdx Date.lt
    simp only
    by_cases hm1 : d.month = 1
    · left
      omega
    · right
      refine ⟨by omega, Or.inl (by omega)⟩

theorem mostRecentMonthEnd_year_month (d : Date) (hv : d.valid) :
    ((mostRecentMonthEnd d).year = d.year ∧ (mostRecentMonthEnd d).month = d.month) ↔
      d.isMonthEnd := by
  constructor
  · intro h
    by_contra hne
    obtain ⟨h1, h2, h3, h4⟩ := hv
    obtain ⟨hy, hm⟩ := h
    unfold mostRecentMonthEnd at hy hm
    rw [lastMEIdx_of_not_monthEnd d hne] at hy hm
    unfold monthEndOfIdx mIdx at hy hm
    simp only at hy hm
    have hne' : ¬ d.day = daysInMonth d.year d.month := hne
    omega
  · intro hme
    rw [mostRecentMonthEnd_of_monthEnd d hv hme]
    exact ⟨rfl, rfl⟩

theorem date_range_M_length (today : Date) (p : ℕ) : (date_range_M today p).length = p := by
  simp [date_range_M]

theorem date_range_M_getD (today : Date) (p i : ℕ) (hi : i < p) :
    (date_range_M today p).getD i ⟨0, 1, 1⟩ =
      monthEndOfIdx (lastMEIdx today - ((p : ℤ) - 1) + i) := by
  unfold date_range_M
  exact getD_map_range _ p i hi _

theorem date_range_M_ascending (today : Date) (p i : ℕ) (hi : i + 1 < p) :
    Date.lt ((date_range_M today p).getD i ⟨0, 1, 1⟩)
      ((date_range_M today p).getD (i + 1) ⟨0, 1, 1⟩) := by
  rw [date_range_M_getD today p i (by omega), date_range_M_getD today p (i + 1) hi]
  have hc : (lastMEIdx today - ((p : ℤ) - 1) + (i + 1 : ℕ)) =
      (lastMEIdx today - ((p : ℤ) - 1) + i) + 1 := by push_cast; ring
  rw [hc]
  exact monthEndOfIdx_lt _

theorem date_range_M_getLast (today : Date) (p : ℕ) (hp : 1 ≤ p) :
    (date_range_M today p).getLastD ⟨0, 1, 1⟩ = mostRecentMonthEnd today := by
  obtain ⟨n, rfl⟩ : ∃ n, p = n + 1 := ⟨p - 1, by omega⟩
  unfold date_range_M mostRecentMonthEnd
  rw [List.range_succ, List.map_append]
  simp only [List.map_cons, List.map_nil, List.getLastD_concat]
  congr 1
  push_cast
  ring

theorem date_range_M_mem_isMonthEnd (today : Date) (p : ℕ) (d : Date)
    (hd : d ∈ date_range_M today p) : d.isMonthEnd := by
  unfold date_range_M at hd
  obtain ⟨i, _, rfl⟩ := List.mem_map.mp hd
  exact monthEndOfIdx_isMonthEnd _

/-! ### Claim theorems -/

/-- Claim C1: for every valid seed and every period count `p ≥ 1`, the series
generator is deterministic — two calls with the same `(seed, periods)` yield
the same DataFrame (all row values included), regardless of the incoming
global generator state, since `np.random.seed` is called first. -/
theorem C1_determinism (R : NpRandomModel) (today : Date) (seed periods : ℕ)
    (hseed : seed < 2 ^ 32) (hp : 1 ≤ periods) (g1 g2 : ℕ) :
    (generate_time_series R today g1 seed periods).1 =
      (generate_time_series R today g2 seed periods).1 := rfl

/-- Witness for C1 at seed 42, 12 periods, two distinct incoming states. -/
theorem C1_determinism_witness :
    ((42 : ℕ) < 2 ^ 32 ∧ (1 : ℕ) ≤ 12) ∧
      (generate_time_series trivialRng ⟨2026, 10, 12⟩ 5 42 12).1 =
        (generate_time_series trivialRng ⟨2026, 10, 12⟩ 7 42 12).1 :=
  ⟨⟨by decide, by decide⟩,
    C1_determinism trivialRng ⟨2026, 10, 12⟩ 42 12 (by decide) (by decide) 5 7⟩

/-- Claim C2: every field value `v` of every row of the generated series
satisfies `0 ≤ v ≤ 100` and is an integer number of tenths (at most one
decimal digit). -/
theorem C2_field_bounds (R : NpRandomModel) (today : Date) (g seed periods : ℕ)
    (hp : 1 ≤ periods) (i j : ℕ) (hi : i < periods) (hj : j < 3) :
    0 ≤ ((generate_time_series R today g seed periods).1.vals.getD i []).getD j 0 ∧
      ((generate_time_series R today g seed periods).1.vals.getD i []).getD j 0 ≤ 100 ∧
      ∃ n : ℤ,
        ((generate_time_series R today g seed periods).1.vals.getD i []).getD j 0 =
          (n : ℚ) / 10 := by
  have hval : ((generate_time_series R today g seed periods).1.vals.getD i []).getD j 0 =
      round1 (clip 0 100 (linspaceVal 60 85 periods i +
        (0 + 4 * R.stdNormal (R.stateOfSeed seed) (i * 3 + j)))) := by
    rw [generate_vals_eq, getD_map_range _ periods i hi, getD_map_range _ 3 j hj]
  rw [hval]
  obtain ⟨hc0, hc100⟩ := clip_mem (linspaceVal 60 85 periods i +
    (0 + 4 * R.stdNormal (R.stateOfSeed seed) (i * 3 + j)))
  obtain ⟨hr0, hr100⟩ := round1_bounds _ hc0 hc100
  exact ⟨hr0, hr100, round1_tenths _⟩

/-- Witness for C2 at seed 0, 1 period, field (0,0). -/
theorem C2_field_bounds_witness :
    ((1 : ℕ) ≤ 1 ∧ (0 : ℕ) < 1 ∧ (0 : ℕ) < 3) ∧
      (0 ≤ ((generate_time_series trivialRng ⟨2026, 10, 12⟩ 0 0 1).1.vals.getD 0 []).getD 0 0 ∧
        ((generate_time_series trivialRng ⟨2026, 10, 12⟩ 0 0 1).1.vals.getD 0 []).getD 0 0 ≤ 100 ∧
        ∃ n : ℤ,
          ((generate_time_series trivialRng ⟨2026, 10, 12⟩ 0 0 1).1.vals.getD 0 []).getD 0 0 =
            (n : ℚ) / 10) :=
  ⟨⟨by decide, by decide, by decide⟩,
    C2_field_bounds trivialRng ⟨2026, 10, 12⟩ 0 0 1 (by decide) 0 0 (by decide) (by decide)⟩

/-- Counterexample to claim C3 as stated: with today = 2026-10-12 (not the
last day of a month), the 12-period series ends at 2026-09-30, which is not
in the month containing today. -/
theorem C3_counterexample :
    (generate_time_series trivialRng ⟨2026, 10, 12⟩ 0 0 12).1.index.getLastD ⟨0, 1, 1⟩ =
        ⟨2026, 9, 30⟩ ∧
      ¬ ((⟨2026, 9, 30⟩ : Date).month = (⟨2026, 10, 12⟩ : Date).month ∧
          (⟨2026, 9, 30⟩ : Date).year = (⟨2026, 10, 12⟩ : Date).year) :=
  ⟨by decide, by decide⟩

/-- Claim C3 (amended): the generated series has exactly `p` rows, its dates
are strictly ascending month-end dates, and it ends at the most recent
month-end on or before today — which lies in the current month exactly when
today is the last day of its month. -/
theorem C3_amended_series_dates (R : NpRandomModel) (today : Date) (g seed : ℕ)
    (periods : ℕ) (hv : today.valid) (hp : 1 ≤ periods) :
    (generate_time_series R today g seed periods).1.index.length = periods ∧
      (generate_time_series R today g seed periods).1.vals.length = periods ∧
      (∀ i : ℕ, i + 1 < periods →
        Date.lt ((generate_time_series R today g seed periods).1.index.getD i ⟨0, 1, 1⟩)
          ((generate_time_series R today g seed periods).1.index.getD (i + 1) ⟨0, 1, 1⟩)) ∧
      (∀ d ∈ (generate_time_series R today g seed periods).1.index, d.isMonthEnd) ∧
      (generate_time_series R today g seed periods).1.index.getLastD ⟨0, 1, 1⟩ =
        mostRecentMonthEnd today ∧
      Date.le (mostRecentMonthEnd today) today ∧
      (((mostRecentMonthEnd today).year = today.year ∧
          (mostRecentMonthEnd today).month = today.month) ↔ today.isMonthEnd) := by
  refine ⟨?_, ?_, ?_, ?_, ?_, mostRecentMonthEnd_le today hv,
    mostRecentMonthEnd_year_month today hv⟩
  · rw [generate_index_eq]
    exact date_range_M_length today periods
  · rw [generate_vals_eq]
    simp
  · intro i hi
    rw [generate_index_eq]
    exact date_range_M_ascending today periods i hi
  · intro d hd
    rw [generate_index_eq] at hd
    exact date_range_M_mem_isMonthEnd today periods d hd
  · rw [generate_index_eq]
    exact date_range_M_getLast today periods hp

/-- Witness for the amended C3 at today = 2026-10-12, 12 periods. -/
theorem C3_amended_series_dates_witness :
    ((⟨2026, 10, 12⟩ : Date).valid ∧ (1 : ℕ) ≤ 12) ∧
      ((generate_time_series trivialRng ⟨2026, 10, 12⟩ 0 0 12).1.index.length = 12 ∧
        (generate_time_series trivialRng ⟨2026, 10, 12⟩ 0 0 12).1.vals.length = 12 ∧
        (∀ i : ℕ, i + 1 < 12 →
          Date.lt ((generate_time_series trivialRng ⟨2026, 10, 12⟩ 0 0 12).1.index.getD i ⟨0, 1, 1⟩)
            ((generate_time_series trivialRng ⟨2026, 10, 12⟩ 0 0 12).1.index.getD (i + 1) ⟨0, 1, 1⟩)) ∧
        (∀ d ∈ (generate_time_series trivialRng ⟨2026, 10, 12⟩ 0 0 12).1.index, d.isMonthEnd) ∧
        (generate_time_series trivialRng ⟨2026, 10, 12⟩ 0 0 12).1.index.getLastD ⟨0, 1, 1⟩ =
          mostRecentMonthEnd ⟨2026, 10, 12⟩ ∧
        Date.le (mostRecentMonthEnd ⟨2026, 10, 12⟩) ⟨2026, 10, 12⟩ ∧
        (((mostRecentMonthEnd ⟨2026, 10, 12⟩).year = (⟨2026, 10, 12⟩ : Date).year ∧
            (mostRecentMonthEnd ⟨2026, 10, 12⟩).month = (⟨2026, 10, 12⟩ : Date).month) ↔
          (⟨2026, 10, 12⟩ : Date).isMonthEnd)) :=
  ⟨⟨by decide, by decide⟩,
    C3_amended_series_dates trivialRng ⟨2026, 10, 12⟩ 0 0 12 (by decide) (by decide)⟩

/-- Claim C4: for base revenue `r ≥ 10` and percentage `pct ∈ [0, 50]`, the
impact computation satisfies `projected = r * (1 + pct/100)`,
`uplift = projected - r`, and `uplift ≥ 0`. -/
theorem C4_impact_formulas (r pct : ℚ) (hr : 10 ≤ r) (h0 : 0 ≤ pct) (h50 : pct ≤ 50) :
    projected r pct = r * (1 + pct / 100) ∧
      uplift r pct = projected r pct - r ∧ 0 ≤ uplift r pct := by
  refine ⟨by unfold projected uplift; ring, by unfold projected; ring, ?_⟩
  unfold uplift
  exact div_nonneg (mul_nonneg (by linarith) h0) (by norm_num)

/-- Witness for C4 at the app defaults r = 500, pct = 8. -/
theorem C4_impact_formulas_witness :
    ((10 : ℚ) ≤ 500 ∧ (0 : ℚ) ≤ 8 ∧ (8 : ℚ) ≤ 50) ∧
      (projected 500 8 = 500 * (1 + 8 / 100) ∧
        uplift 500 8 = projected 500 8 - 500 ∧ 0 ≤ uplift 500 8) :=
  ⟨⟨by norm_num, by norm_num, by norm_num⟩,
    C4_impact_formulas 500 8 (by norm_num) (by norm_num) (by norm_num)⟩

/-- Claim C5: each field value of the generated series is computed by the
stated steps — linear baseline ramping from 60 to 85 across the `p` periods,
plus the appropriately indexed noise draw of mean 0 and standard deviation 4
(one independently indexed draw per metric per period), clipped into
`[0, 100]`, then rounded to one decimal place. -/
theorem C5_algorithm_steps (R : NpRandomModel) (today : Date) (g seed periods : ℕ)
    (hp : 1 ≤ periods) (i j : ℕ) (hi : i < periods) (hj : j < 3) :
    ((generate_time_series R today g seed periods).1.vals.getD i []).getD j 0 =
      round1 (clip 0 100 (linspaceVal 60 85 periods i +
        (0 + 4 * R.stdNormal (R.stateOfSeed seed) (i * 3 + j)))) := by
  rw [generate_vals_eq, getD_map_range _ periods i hi, getD_map_range _ 3 j hj]

/-- Witness for C5 at seed 42, 12 periods, field (11, 2). -/
theorem C5_algorithm_steps_witness :
    ((1 : ℕ) ≤ 12 ∧ (11 : ℕ) < 12 ∧ (2 : ℕ) < 3) ∧
      ((generate_time_series trivialRng ⟨2026, 10, 12⟩ 0 42 12).1.vals.getD 11 []).getD 2 0 =
        round1 (clip 0 100 (linspaceVal 60 85 12 11 +
          (0 + 4 * trivialRng.stdNormal (trivialRng.stateOfSeed 42) (11 * 3 + 2)))) :=
  ⟨⟨by decide, by decide, by decide⟩,
    C5_algorithm_steps trivialRng ⟨2026, 10, 12⟩ 0 42 12 (by decide) 11 2 (by decide) (by decide)⟩

/-- Claim C6: for every organization name and every list of summary lines
(the empty list included), the renderer totally produces exactly one page;
with no summary lines, the page holds exactly the title (which embeds the
organization name) and the timestamp line. -/
theorem C6_single_page (now org : String) (lines : List String) :
    (make_pdf_bytes now org lines).length = 1 ∧
      make_pdf_bytes now org [] =
        [⟨[⟨40, A4height - 60, "Helvetica-Bold", 16,
              "Earth 3.0 — Board Audit Snapshot • " ++ org⟩,
            ⟨40, A4height - 82, "Helvetica", 10, "Generated: " ++ now⟩]⟩] :=
  ⟨rfl, rfl⟩

/-- Claim C7: rendering twice with identical org name and summary lines
yields identical drawing-command output except for the timestamp element
(which always sits at the same position, font and size, differing only in
its text). -/
theorem C7_identical_inputs (t1 t2 org : String) (lines : List String) :
    stripTimestamp (make_pdf_bytes t1 org lines) =
        stripTimestamp (make_pdf_bytes t2 org lines) ∧
      ((make_pdf_bytes t1 org lines).headD ⟨[]⟩).elems.getD 1 ⟨0, 0, "", 0, ""⟩ =
        (⟨40, A4height - 82, "Helvetica", 10, "Generated: " ++ t1⟩ : TextElem) :=
  ⟨rfl, rfl⟩

/-- Claim C8: a percentage of 0 produces zero uplift and a projected revenue
equal to the base revenue. -/
theorem C8_zero_percentage (r : ℚ) (hr : 10 ≤ r) :
    uplift r 0 = 0 ∧ projected r 0 = r := by
  constructor
  · unfold uplift; ring
  · unfold projected uplift; ring

/-- Witness for C8 at r = 500. -/
theorem C8_zero_percentage_witness :
    (10 : ℚ) ≤ 500 ∧ (uplift 500 0 = 0 ∧ projected 500 0 = 500) :=
  ⟨by norm_num, C8_zero_percentage 500 (by norm_num)⟩

/-- Claim C9: the simulated-audit handler always calls the series generator
with the fixed seed 42 and the default period count 12, so its displayed
scores (the last row of that series) are the same for any two organization
names. -/
theorem C9_org_independent (R : NpRandomModel) (today : Date) (now : String)
    (g : ℕ) (org1 org2 : String) :
    (run_simulated_audit R today now g org1).scores =
        (run_simulated_audit R today now g org2).scores ∧
      (run_simulated_audit R today now g org1).scores =
        ["Governance", "ESG", "Finance"].zip
          ((generate_time_series R today g 42 12).1.vals.getLastD []) :=
  ⟨rfl, rfl⟩

/-- Claim C10: for fixed base revenue `r ≥ 10`, the projected revenue is
monotone nondecreasing in the improvement percentage on `[0, 50]`. -/
theorem C10_projected_monotone (r p1 p2 : ℚ) (hr : 10 ≤ r) (h0 : 0 ≤ p1)
    (h12 : p1 ≤ p2) (h50 : p2 ≤ 50) : projected r p1 ≤ projected r p2 := by
  unfold projected uplift
  have h : r * p1 ≤ r * p2 := mul_le_mul_of_nonneg_left h12 (by linarith)
  linarith

/-- Witness for C10 at r = 500, percentages 5 ≤ 8. -/
theorem C10_projected_monotone_witness :
    ((10 : ℚ) ≤ 500 ∧ (0 : ℚ) ≤ 5 ∧ (5 : ℚ) ≤ 8 ∧ (8 : ℚ) ≤ 50) ∧
      projected 500 5 ≤ projected 500 8 :=
  ⟨⟨by norm_num, by norm_num, by norm_num, by norm_num⟩,
    C10_projected_monotone 500 5 8 (by norm_num) (by norm_num) (by norm_num) (by norm_num)⟩
